import Mathlib

/-!
Verification development for the mothergeo schema core: the schema model
(`mothergeo/schemas/modeling.py`), the JSON schema parser
(`mothergeo/schemas/parsing.py`), the i18n pack (`mothergeo/i18n.py`) and the
GeoAlchemy storage-class factory (`mothergeo/db/modeling.py`,
`mothergeo/db/postgis/geoalchemy.py`).

Python values decoded from JSON are modelled by `PyVal`; Python exceptions by
`Err`; fallible Python code by `Except Err`.  Python floats are modelled as
exact rationals.  Every definition is a direct transcription of the cited
source function; comments record the few places where an unexercised corner of
a Python builtin (e.g. `in` on a non-mapping receiver) is modelled coarsely.
-/

/-- A Python value as decoded from JSON (plus `None`): the dynamic values the
schema parser manipulates.  Floats are modelled as exact rationals. -/
inductive PyVal where
  | none
  | bool (b : Bool)
  | int (i : Int)
  | float (q : Rat)
  | str (s : String)
  | list (xs : List PyVal)
  | dict (kvs : List (String × PyVal))

/-- `mothergeo.schemas.modeling.DataType`: the supported field data types. -/
inductive DataType where
  | UNKNOWN
  | TEXT
  | UUID
  | INT
  | FLOAT
  | DATETIME
deriving DecidableEq

/-- `mothergeo.geometry.GeometryType`: the supported geometric data types. -/
inductive GeometryType where
  | UNKNOWN
  | POINT
  | POLYLINE
  | POLYGON
deriving DecidableEq

/-- `mothergeo.schemas.modeling.Requirement`. -/
inductive Requirement where
  | NONE
  | REQUESTED
  | REQUIRED
deriving DecidableEq

/-- The Python exceptions raised by the modelled code.  `parseException` is
`mothergeo.schemas.parsing.ParseException`; `unsupportedDataType` is
`UnsupportedDataTypeError` (geoalchemy.py); `unsupportedGeometry` is
`mothergeo.geometry.UnsupportedGeometryException`. -/
inductive Err where
  | keyError
  | typeError
  | valueError
  | attributeError
  | fileNotFound
  | parseException (msg : String)
  | unsupportedDataType (data_type : DataType)
  | unsupportedGeometry (geometry_type : GeometryType)
deriving DecidableEq

/-- `mothergeo.geometry.DEFAULT_SRID = 3857`. -/
def DEFAULT_SRID : Int := 3857

/-- Python `str.lower()` on a basic-latin character (the case folding the
`CaseInsensitiveDict` and `Enums.from_name` rely on). -/
def lowerChar (c : Char) : Char :=
  if 65 ≤ c.toNat ∧ c.toNat ≤ 90 then Char.ofNat (c.toNat + 32) else c

/-- Python `str.lower()` (basic latin). -/
def lowerStr (s : String) : String := ⟨s.data.map lowerChar⟩

/-- First-match lookup in a Python `dict` modelled as an association list
(JSON objects have unique keys, so first-match is exact). -/
def dlookup {α : Type} : List (String × α) → String → Option α
  | [], _ => Option.none
  | kv :: rest, k => if kv.1 == k then some kv.2 else dlookup rest k

/-- Python `dict` assignment `d[k] = v`: replace in place or append. -/
def dinsert {α : Type} : List (String × α) → String → α → List (String × α)
  | [], k, v => [(k, v)]
  | kv :: rest, k, v => if kv.1 == k then (k, v) :: rest else kv :: dinsert rest k v

/-- Lookup in an `insensitive_dict.CaseInsensitiveDict`: keys compare after
lower-casing. -/
def ciLookup {α : Type} : List (String × α) → String → Option α
  | [], _ => Option.none
  | kv :: rest, k => if lowerStr kv.1 == lowerStr k then some kv.2 else ciLookup rest k

/-- Assignment in a `CaseInsensitiveDict`. -/
def ciInsert {α : Type} : List (String × α) → String → α → List (String × α)
  | [], k, v => [(k, v)]
  | kv :: rest, k, v =>
      if lowerStr kv.1 == lowerStr k then (kv.1, v) :: rest else kv :: ciInsert rest k v

/-- Build a `CaseInsensitiveDict` from key/value pairs in order (as the dict
comprehensions in `RelationInfo.__init__` etc. do): later duplicates of a key
overwrite earlier ones. -/
def ciDictOfList {α : Type} (l : List (String × α)) : List (String × α) :=
  l.foldl (fun d kv => ciInsert d kv.1 kv.2) []

/-- `mothergeo.codetools.TryGetResult`: a named tuple of a success flag and
the retrieved (or default) value. -/
structure TryGetResult where
  result : Bool
  value : PyVal

/-- Is a needle a contiguous substring of a haystack (Python `str in str`)? -/
def listMatchesAt : List Char → List Char → Bool
  | [], _ => true
  | _ :: _, [] => false
  | a :: as, b :: bs => a == b && listMatchesAt as bs

def listHasSub (needle : List Char) : List Char → Bool
  | [] => listMatchesAt needle []
  | c :: t => listMatchesAt needle (c :: t) || listHasSub needle t

/-- `mothergeo.codetools.Dicts.try_get(obj, key, default)`.  `None` receivers
yield the default; `dict` receivers look the key up; for other receivers the
Python `key in obj` test is evaluated faithfully (`str`: substring test;
`list`: membership of the key string among the elements — both followed by a
`TypeError` from `obj[key]` when the test succeeds; numbers: `TypeError`). -/
def tryGet (obj : PyVal) (key : String) (dflt : PyVal) : Except Err TryGetResult :=
  match obj with
  | .none => .ok ⟨false, dflt⟩
  | .dict kvs =>
      match dlookup kvs key with
      | some v => .ok ⟨true, v⟩
      | Option.none => .ok ⟨false, dflt⟩
  | .str s =>
      if listHasSub key.data s.data then .error .typeError else .ok ⟨false, dflt⟩
  | .list xs =>
      if xs.any (fun v => match v with | .str t => t == key | _ => false)
      then .error .typeError else .ok ⟨false, dflt⟩
  | _ => .error .typeError

/-- Python subscription `obj[key]` with a string key: `KeyError` when the key
is missing from a `dict`, `TypeError` on every non-`dict` receiver. -/
def subscript (obj : PyVal) (key : String) : Except Err PyVal :=
  match obj with
  | .dict kvs =>
      match dlookup kvs key with
      | some v => .ok v
      | Option.none => .error .keyError
  | _ => .error .typeError

/-- Python `key in obj` as used by the parser; only ever reached on `dict`
receivers (every call site subscripts the same object first). -/
def containsKey (obj : PyVal) (key : String) : Bool :=
  match obj with
  | .dict kvs => (dlookup kvs key).isSome
  | _ => false

/-- Python iteration `for x in obj` as used by the parser's comprehensions:
lists yield elements, strings yield 1-character strings, dicts yield keys,
everything else raises `TypeError`. -/
def asIterList (obj : PyVal) : Except Err (List PyVal) :=
  match obj with
  | .list xs => .ok xs
  | .str s => .ok (s.data.map (fun c => .str c.toString))
  | .dict kvs => .ok (kvs.map (fun kv => .str kv.1))
  | _ => .error .typeError

/-- Python `str(v)` for the values used as dictionary keys.  Only string names
are exercised by the parser; the renderings of the other constructors are
placeholders (`repr` of containers is not modelled). -/
def pyStrOf : PyVal → String
  | .str s => s
  | .int i => toString i
  | .bool b => if b then "True" else "False"
  | .none => "None"
  | .float _ => "<float>"
  | .list _ => "<list>"
  | .dict _ => "<dict>"

def isPySpace (c : Char) : Bool :=
  c == ' ' || c == '\t' || c == '\n' || c == '\r'

def trimChars (l : List Char) : List Char :=
  ((l.dropWhile isPySpace).reverse.dropWhile isPySpace).reverse

def allDigits (l : List Char) : Bool := l.all (fun c => c.isDigit)

def natFromDigits (l : List Char) : Nat :=
  l.foldl (fun a c => 10 * a + (c.toNat - 48)) 0

/-- Python `int(s)` on a string: optional surrounding whitespace, an optional
sign, then decimal digits; anything else raises `ValueError` (modelled as
`Option.none`).  Underscore digit separators are not modelled (unused). -/
def pyIntOfString? (s : String) : Option Int :=
  let cs := trimChars s.data
  let sb : Int × List Char :=
    match cs with
    | '-' :: r => (-1, r)
    | '+' :: r => (1, r)
    | r => (1, r)
  if !sb.2.isEmpty && allDigits sb.2 then some (sb.1 * natFromDigits sb.2) else Option.none

/-- Split a character list at the first `'.'`. -/
def splitDot : List Char → List Char × Option (List Char)
  | [] => ([], Option.none)
  | c :: r =>
      if c == '.' then ([], some r)
      else
        let p := splitDot r
        (c :: p.1, p.2)

/-- Python `float(s)` on a plain decimal literal (optional whitespace, sign,
digits with at most one decimal point and at least one digit); exponent,
`inf`/`nan` forms are not modelled (unused).  The value is the exact rational
the literal denotes. -/
def pyFloatOfString? (s : String) : Option Rat :=
  let cs := trimChars s.data
  let sb : Int × List Char :=
    match cs with
    | '-' :: r => (-1, r)
    | '+' :: r => (1, r)
    | r => (1, r)
  match splitDot sb.2 with
  | (ip, Option.none) =>
      if !ip.isEmpty && allDigits ip then some (mkRat (sb.1 * natFromDigits ip) 1)
      else Option.none
  | (ip, some fp) =>
      if (!ip.isEmpty || !fp.isEmpty) && allDigits ip && allDigits fp
          && !(fp.contains '.') then
        some (mkRat (sb.1 * (natFromDigits ip * 10 ^ fp.length + natFromDigits fp))
          (10 ^ fp.length))
      else Option.none

/-- Python `int(v)` for the values `FeatureTableInfo.__init__` converts
(`int(srid)`): ints pass through, bools become 0/1, floats truncate toward
zero, numeric strings parse, everything else raises. -/
def pyToInt : PyVal → Except Err Int
  | .int i => .ok i
  | .bool b => .ok (if b then 1 else 0)
  | .float q => .ok (q.num.tdiv q.den)
  | .str s =>
      match pyIntOfString? s with
      | some i => .ok i
      | Option.none => .error .valueError
  | _ => .error .typeError

/-- `mothergeo.schemas.modeling.Revision`.  `sequence = Option.none` models a
`Revision` whose `_sequence` attribute was never assigned (the `__init__`
falls through every branch for non-number, non-string, non-`None` input). -/
structure Revision where
  title : PyVal
  sequence : Option PyVal
  author_name : PyVal
  author_email : PyVal

/-- `Revision.__init__` (modeling.py lines 339-368).  `None` sequences become
the integer 0; numbers (Python counts `bool` among `numbers.Number`) pass
through; strings parse as a float when they contain `'.'` and as an int
otherwise — the conversions raise `ValueError` on non-numeric strings, which
propagates (the source's `except TypeError` clause can never fire on a string
argument, so the re-raise as `TypeError` is dead code). -/
def Revision.init (title seq author_name author_email : PyVal) : Except Err Revision := do
  let sequence : Option PyVal ←
    match seq with
    | .none => pure (some (PyVal.int 0))
    | .int i => pure (some (PyVal.int i))
    | .float q => pure (some (PyVal.float q))
    | .bool b => pure (some (PyVal.bool b))
    | .str s =>
        if s.data.contains '.' then
          match pyFloatOfString? s with
          | some q => pure (some (PyVal.float q))
          | Option.none => Except.error Err.valueError
        else
          match pyIntOfString? s with
          | some i => pure (some (PyVal.int i))
          | Option.none => Except.error Err.valueError
    | _ => pure Option.none
  pure { title := title, sequence := sequence,
         author_name := author_name, author_email := author_email }

/-- `mothergeo.i18n.I18nPack`: the default-locale translations (the `UserDict`
data) plus the locale → overlay map (`__translations`).  Overlays are
constructed only via `I18nPack(translations)` / `add_translation`, so their
own `__translations` is always empty; they are therefore modelled by their
data dictionaries. -/
structure I18nPack where
  data : List (String × PyVal)
  translations : List (String × List (String × PyVal))

/-- `I18nPack.__getattr__` (i18n.py lines 90-101): pick the active locale's
overlay when there is one, else the pack itself; return the key's value there,
else (when an overlay was picked — `pack is not self`) the default value, else
`None`.  Overlays are freshly constructed objects, so `pack is not self` holds
exactly on the overlay branch. -/
def I18nPack.lookupKey (p : I18nPack) (current_locale : Option String)
    (name : String) : PyVal :=
  let packOv : Option (List (String × PyVal)) :=
    match current_locale with
    | some loc => dlookup p.translations loc
    | Option.none => Option.none
  match packOv with
  | some overlay =>
      match dlookup overlay name with
      | some v => v
      | Option.none =>
          match dlookup p.data name with
          | some v => v
          | Option.none => PyVal.none
  | Option.none =>
      match dlookup p.data name with
      | some v => v
      | Option.none => PyVal.none

/-- Modelled from the spec (not from the source): "looking up a key under a
specific locale returns the overlay's value if present, else the default's
value, else an absence signal".  Used only to state the refinement claim about
`I18nPack.lookupKey`. -/
def specLocaleLookup (p : I18nPack) (current_locale : Option String)
    (name : String) : PyVal :=
  let overlayVal : Option PyVal :=
    match current_locale with
    | some loc => (dlookup p.translations loc).bind (fun ov => dlookup ov name)
    | Option.none => Option.none
  match overlayVal with
  | some v => v
  | Option.none =>
      match dlookup p.data name with
      | some v => v
      | Option.none => PyVal.none

/-- `mothergeo.schemas.modeling.Source`.  `requirement` has been through
`Enums.from_name`; `analogs` is the normalized list. -/
structure Source where
  requirement : Option Requirement
  analogs : List PyVal

/-- `mothergeo.schemas.modeling.Target` (raw constructor arguments stored). -/
structure Target where
  calculated : PyVal
  guaranteed : PyVal

/-- `mothergeo.schemas.modeling.Usage`. -/
structure Usage where
  search : PyVal
  display : PyVal

/-- `mothergeo.schemas.modeling.NenaSpec`. -/
structure NenaSpec where
  analog : PyVal
  required : PyVal

/-- `mothergeo.schemas.modeling.FieldInfo` after `__init__` ran:
`data_type` has been through `Enums.from_name`; `domain` is the materialized
set (`None` stays `None`). -/
structure FieldInfo where
  name : PyVal
  unique : PyVal
  data_type : DataType
  source : Source
  target : Target
  i18n : I18nPack
  preferences : PyVal
  usage : Usage
  nena : NenaSpec
  domain : Option (List PyVal)

/-- The Python runtime class of a relation-info object, for the exact
`type(what) is RelationInfo` test in `EntityClassFactory.get`. -/
inductive PyClass where
  | relationInfo
  | featureTableInfo
deriving DecidableEq

/-- `mothergeo.schemas.modeling.RelationInfo`: `fields` is the
`CaseInsensitiveDict` keyed by `str(field.name)`. -/
structure RelationInfo where
  name : PyVal
  identity? : PyVal
  fields : List (String × FieldInfo)
  nena : Option NenaSpec
  i18n : Option I18nPack
  py_type : PyClass

/-- `mothergeo.schemas.modeling.FeatureTableInfo`: a `RelationInfo` plus the
geometry type and the converted optional SRID (`int(srid)` or `None`). -/
structure FeatureTableInfo extends RelationInfo where
  geometry_type : GeometryType
  srid? : Option Int

/-- The `FeatureTableInfo.srid` property: the table's own SRID, else mother's
default. -/
def FeatureTableInfo.srid (ft : FeatureTableInfo) : Int :=
  ft.srid?.getD DEFAULT_SRID

/-- `FeatureTableInfo.__init__`: runs `RelationInfo.__init__` (index the
fields by `str(field.name)` in a `CaseInsensitiveDict`) and converts
`srid` with `int(...)` unless it is `None`. -/
def FeatureTableInfo.init (name identity : PyVal) (geometry_type : GeometryType)
    (fields : List FieldInfo) (srid : PyVal) (nena : NenaSpec) (i18n : I18nPack) :
    Except Err FeatureTableInfo := do
  let srid? : Option Int ←
    match srid with
    | .none => pure Option.none
    | v => (pyToInt v).map some
  pure { name := name, identity? := identity,
         fields := ciDictOfList (fields.map (fun f => (pyStrOf f.name, f))),
         nena := some nena, i18n := some i18n, py_type := PyClass.featureTableInfo,
         geometry_type := geometry_type, srid? := srid? }

/-- `mothergeo.schemas.modeling.FeatureTableInfoCollection`
(with its `_RelationInfoCollection` base): indexed common fields and
relations, the default identity, and the raw common SRID.  The `common_srid`
property substitutes `DEFAULT_SRID` for `None`. -/
structure FeatureTableInfoCollection where
  common_fields : List (String × FieldInfo)
  relations : List (String × FeatureTableInfo)
  default_identity : PyVal
  common_srid? : PyVal

/-- The `FeatureTableInfoCollection.common_srid` property. -/
def FeatureTableInfoCollection.common_srid (c : FeatureTableInfoCollection) : PyVal :=
  match c.common_srid? with
  | .none => PyVal.int DEFAULT_SRID
  | v => v

def FeatureTableInfoCollection.init (common_fields : List FieldInfo)
    (feature_tables : List FeatureTableInfo) (default_identity common_srid : PyVal) :
    FeatureTableInfoCollection :=
  { common_fields := ciDictOfList (common_fields.map (fun f => (pyStrOf f.name, f))),
    relations := ciDictOfList (feature_tables.map (fun t => (pyStrOf t.name, t))),
    default_identity := default_identity, common_srid? := common_srid }

/-- `mothergeo.schemas.modeling.SpatialInfo`. -/
structure SpatialInfo where
  common_srid : PyVal
  default_identity : PyVal
  common_fields : List FieldInfo
  feature_tables : FeatureTableInfoCollection

/-- `mothergeo.schemas.modeling.ModelInfo`.  The `name` slot is typed as the
value `JsonModelInfoParser.parse` actually stores there: the raw
`Dicts.try_get(parsed, 'name', 'Nameless Model')` result (parsing.py line 125
omits the `.value` projection every other call site applies). -/
structure ModelInfo where
  name : TryGetResult
  revision : Revision
  spatial_info : SpatialInfo

/-- `mothergeo.codetools.Enums.from_name(GeometryType, name)`: a
case-insensitive lookup of the member name; a miss raises `KeyError` (which
the parser's decorator turns into `ParseException`).  Non-string lookups are
not exercised by the parser and are modelled as `KeyError`. -/
def GeometryType.from_name : PyVal → Except Err GeometryType
  | .str s =>
      match lowerStr s with
      | "unknown" => .ok .UNKNOWN
      | "point" => .ok .POINT
      | "polyline" => .ok .POLYLINE
      | "polygon" => .ok .POLYGON
      | _ => .error .keyError
  | _ => .error .keyError

/-- `Enums.from_name(DataType, name)` (see `GeometryType.from_name`). -/
def DataType.from_name : PyVal → Except Err DataType
  | .str s =>
      match lowerStr s with
      | "unknown" => .ok .UNKNOWN
      | "text" => .ok .TEXT
      | "uuid" => .ok .UUID
      | "int" => .ok .INT
      | "float" => .ok .FLOAT
      | "datetime" => .ok .DATETIME
      | _ => .error .keyError
  | _ => .error .keyError

/-- `Enums.from_name(Requirement, name)` (see `GeometryType.from_name`). -/
def Requirement.from_name : PyVal → Except Err Requirement
  | .str s =>
      match lowerStr s with
      | "none" => .ok .NONE
      | "requested" => .ok .REQUESTED
      | "required" => .ok .REQUIRED
      | _ => .error .keyError
  | _ => .error .keyError

/-- `Source.__init__`: resolve the requirement name unless `None`; normalize
`analogs` (`list` kept, `None` → `[]`, any other value wrapped in a
singleton). -/
def Source.init (requirement analogs : PyVal) : Except Err Source := do
  let req : Option Requirement ←
    match requirement with
    | .none => pure Option.none
    | v => (Requirement.from_name v).map some
  let an : List PyVal :=
    match analogs with
    | .list xs => xs
    | .none => []
    | v => [v]
  pure ⟨req, an⟩

/-- `FieldInfo.__init__`: resolves the data type name, defaults `usage` and
`nena` when `None`, and materializes `domain` with `set(...)` — modelled as
keeping the elements of a list argument (Python's equality-based
de-duplication is not modelled; no claim consults `domain`). -/
def FieldInfo.init (name data_type : PyVal) (source : Source) (target : Target)
    (i18n : I18nPack) (unique preferences : PyVal) (usage : Option Usage)
    (nena : Option NenaSpec) (domain : PyVal) : Except Err FieldInfo := do
  let dt ← DataType.from_name data_type
  let dom : Option (List PyVal) ←
    match domain with
    | .none => pure Option.none
    | .list xs => pure (some xs)
    | _ => Except.error Err.typeError
  pure { name := name, unique := unique, data_type := dt, source := source,
         target := target, i18n := i18n, preferences := preferences,
         usage := usage.getD ⟨PyVal.bool false, PyVal.bool false⟩,
         nena := nena.getD ⟨PyVal.none, PyVal.none⟩, domain := dom }

/-- The `throws_parse_exception` decorator (parsing.py lines 21-39):
`KeyError` and `FileNotFoundError` become `ParseException`; every other
outcome passes through unchanged. -/
def throws_parse_exception {α : Type} (r : Except Err α) : Except Err α :=
  match r with
  | .error .keyError => .error (.parseException "Key error.")
  | .error .fileNotFound => .error (.parseException "File not found.")
  | r => r

/-- `JsonModelInfoParser._json_2_i18n`: `default` (when present) seeds the
pack; every other top-level key becomes a locale overlay via
`set_translations`, which raises `ValueError` on a non-dict value. -/
def json2i18n : PyVal → Except Err I18nPack
  | .dict kvs => do
      let defaults : PyVal :=
        match dlookup kvs "default" with
        | some v => v
        | Option.none => .dict []
      let packData : List (String × PyVal) ←
        match defaults with
        | .dict d => pure d
        | .none => pure []
        | _ => Except.error Err.typeError
      kvs.foldlM
        (fun (pk : I18nPack) kv =>
          if kv.1 == "default" then pure pk
          else
            match kv.2 with
            | .dict tr => pure { pk with translations := dinsert pk.translations kv.1 tr }
            | _ => Except.error Err.valueError)
        ⟨packData, []⟩
  | _ => .error .typeError

/-- `JsonModelInfoParser._json_2_source`. -/
def json2source (j : PyVal) : Except Err Source := do
  let requirement ← (tryGet j "requirement" .none).map (·.value)
  let analogs ← (tryGet j "analogs" (.list [])).map (·.value)
  Source.init requirement analogs

/-- `JsonModelInfoParser._json_2_target`. -/
def json2target (j : PyVal) : Except Err Target := do
  let calculated ← (tryGet j "calculated" (.bool false)).map (·.value)
  let guaranteed ← (tryGet j "guaranteed" (.bool false)).map (·.value)
  pure ⟨calculated, guaranteed⟩

/-- `JsonModelInfoParser._json_2_usage`. -/
def json2usage (j : PyVal) : Except Err Usage := do
  let search ← (tryGet j "search" (.bool false)).map (·.value)
  let display ← (tryGet j "display" (.bool false)).map (·.value)
  pure ⟨search, display⟩

/-- `JsonModelInfoParser._json_2_nena_spec`. -/
def json2nenaSpec (j : PyVal) : Except Err NenaSpec := do
  let analog ← (tryGet j "analog" .none).map (·.value)
  let required ← (tryGet j "required" (.bool false)).map (·.value)
  pure ⟨analog, required⟩

/-- `JsonModelInfoParser._json_2_field_info` before its decorator: `name` and
`type` (and the `source`, `target`, `i18n` sub-objects) are mandatory
subscripts, the rest go through `Dicts.try_get` with the documented
defaults. -/
def json2fieldInfoCore (j : PyVal) : Except Err FieldInfo := do
  let name ← subscript j "name"
  let unique ← (tryGet j "unique" (.bool false)).map (·.value)
  let data_type ← subscript j "type"
  let domain ← (tryGet j "domain" .none).map (·.value)
  let preferences ← (tryGet j "preferences" .none).map (·.value)
  let source ← json2source (← subscript j "source")
  let target ← json2target (← subscript j "target")
  let usage ← json2usage (← (tryGet j "usage" (.dict [])).map (·.value))
  let nena ← json2nenaSpec (← (tryGet j "nena" (.dict [])).map (·.value))
  let i18n ← json2i18n (← subscript j "i18n")
  FieldInfo.init name data_type source target i18n unique preferences
    (some usage) (some nena) domain

/-- `_json_2_field_info` with its `throws_parse_exception` decorator. -/
def json2fieldInfo (j : PyVal) : Except Err FieldInfo :=
  throws_parse_exception (json2fieldInfoCore j)

/-- `JsonModelInfoParser._json_2_revision`: all four keys go through
`Dicts.try_get` with no default, so a missing key silently yields `None`. -/
def json2revision (j : PyVal) : Except Err Revision := do
  let title ← (tryGet j "title" .none).map (·.value)
  let sequence ← (tryGet j "sequence" .none).map (·.value)
  let author_name ← (tryGet j "authorName" .none).map (·.value)
  let author_email ← (tryGet j "authorEmail" .none).map (·.value)
  Revision.init title sequence author_name author_email

/-- `JsonModelInfoParser._json_2_feature_table_info` (parsing.py lines
189-210).  Source line 202 reads
`identity = default_identity if 'identity' in jsobj else default_identity`:
both branches yield the default, so a declared `identity` value is never
consulted; the transcription preserves this. -/
def json2featureTableInfo (j : PyVal) (common_fields : List FieldInfo)
    (default_identity : PyVal) (default_srid : PyVal) : Except Err FeatureTableInfo := do
  let name ← subscript j "name"
  let geometry_type ← GeometryType.from_name (← subscript j "geometryType")
  let nena ← json2nenaSpec (← subscript j "nena")
  let i18n ← json2i18n (← subscript j "i18n")
  let fieldsJs ← asIterList (← subscript j "fields")
  let ownFields ← fieldsJs.mapM json2fieldInfo
  let fields := ownFields ++ common_fields
  let identity := if containsKey j "identity" then default_identity else default_identity
  let srid ← if containsKey j "srid" then subscript j "srid" else pure default_srid
  FeatureTableInfo.init name identity geometry_type fields srid nena i18n

/-- `JsonModelInfoParser._json_2_feature_table_info_collection` (parsing.py
lines 166-187): `defaultIdentity` is a mandatory subscript, `commonSrid`
defaults to `DEFAULT_SRID` through `Dicts.try_get`, and each feature table is
parsed with the collection's identity and SRID defaults. -/
def json2featureTableInfoCollection (j : PyVal) : Except Err FeatureTableInfoCollection := do
  let default_identity ← subscript j "defaultIdentity"
  let common_srid ← (tryGet j "commonSrid" (.int DEFAULT_SRID)).map (·.value)
  let cfJs ← asIterList (← subscript j "commonFields")
  let common_fields ← cfJs.mapM json2fieldInfo
  let ftJs ← asIterList (← subscript j "featureTables")
  let feature_tables ← ftJs.mapM
    (fun ftj => json2featureTableInfo ftj common_fields default_identity common_srid)
  pure (FeatureTableInfoCollection.init common_fields feature_tables
    default_identity common_srid)

/-- `JsonModelInfoParser._json_2_spatial_info` (parsing.py lines 151-164):
`commonSrid`, `commonFields` and `defaultIdentity` are mandatory subscripts
here, then the feature-table collection is parsed from the same object. -/
def json2spatialInfo (j : PyVal) : Except Err SpatialInfo := do
  let common_srid ← subscript j "commonSrid"
  let cfJs ← asIterList (← subscript j "commonFields")
  let common_fields ← cfJs.mapM json2fieldInfo
  let default_identity ← subscript j "defaultIdentity"
  let feature_tables ← json2featureTableInfoCollection j
  pure { common_srid := common_srid, default_identity := default_identity,
         common_fields := common_fields, feature_tables := feature_tables }

/-- `JsonModelInfoParser.parse` on an already-decoded document (the
`json.loads` / file-path fallback stage is not modelled; the claims concern
the decoded object).  The whole body runs under `throws_parse_exception`.
Note line 125: `name` receives the raw `Dicts.try_get` result — the `.value`
projection is missing in the source. -/
def JsonModelInfoParser.parse (doc : PyVal) : Except Err ModelInfo :=
  throws_parse_exception (do
    let name ← tryGet doc "name" (.str "Nameless Model")
    let revision ← json2revision (← subscript doc "revision")
    let spatial_info ← json2spatialInfo (← subscript doc "spatial")
    pure { name := name, revision := revision, spatial_info := spatial_info })

/-- The SQLAlchemy / GeoAlchemy column types the factory constructs, recording
exactly the arguments the source passes: `String(length=...)`, `Integer`,
`Float`, `DateTime`, and `Geometry(kind)` — note the source never passes an
SRID to `Geometry`, so the `srid` slot records `Option.none`. -/
inductive ColumnType where
  | string (length : PyVal)
  | integer
  | float
  | datetime
  | geometry (geometry_type : String) (srid : Option Int)

/-- A `sqlalchemy.Column(name, type, primary_key=...)`. -/
structure Column where
  name : PyVal
  ctype : ColumnType
  primary_key : Bool

/-- The SRID argument recorded on a geometry column (`Option.none` when the
column is not a geometry column or no SRID was passed). -/
def Column.geomSrid (c : Column) : Option Int :=
  match c.ctype with
  | .geometry _ srid => srid
  | _ => Option.none

/-- `GeoAlchemyEntityClassFactory._field_info_to_sqlalchemy_column`
(geoalchemy.py lines 302-341): TEXT → `String` (length from
`preferences.length`, default 150), INT → `Integer`, FLOAT → `Float`,
DATETIME → `DateTime`; anything else raises `UnsupportedDataTypeError`
carrying the data type. -/
def fieldInfoToColumn (field_info : FieldInfo) (identity : Bool) : Except Err Column := do
  let preferences : PyVal :=
    match field_info.preferences with
    | .none => .dict []
    | p => p
  match field_info.data_type with
  | .TEXT => do
      let length ← (tryGet preferences "length" (.int 150)).map (·.value)
      pure ⟨field_info.name, .string length, identity⟩
  | .INT => pure ⟨field_info.name, .integer, identity⟩
  | .FLOAT => pure ⟨field_info.name, .float, identity⟩
  | .DATETIME => pure ⟨field_info.name, .datetime, identity⟩
  | dt => Except.error (Err.unsupportedDataType dt)

/-- `RelationInfo.get_field`: a `CaseInsensitiveDict` lookup; a missing name
raises `KeyError`.  (Non-string lookups would fail inside the dict's
lower-casing; modelled as `AttributeError`, unexercised.) -/
def RelationInfo.get_field (r : RelationInfo) (name : PyVal) : Except Err FieldInfo :=
  match name with
  | .str s =>
      match ciLookup r.fields s with
      | some f => .ok f
      | Option.none => .error .keyError
  | _ => .error .attributeError

/-- The key under which the relation's identity field is stored, when an
identity is configured (`RelationInfo.get_identity_field` resolves the
identity name through `get_field`, raising `KeyError` when absent). -/
def RelationInfo.identityFieldKey (r : RelationInfo) : Except Err (Option String) :=
  match r.identity? with
  | .none => .ok Option.none
  | .str s =>
      match ciLookup r.fields s with
      | some _ => .ok (some (lowerStr s))
      | Option.none => .error .keyError
  | _ => .error .attributeError

/-- `GeoAlchemyEntityClassFactory._define_fields` (geoalchemy.py lines
281-300): one column per field, keyed by the field's name.  The source
computes `identity=(relation_info.get_identity_field() == field)` inside the
comprehension; `==` on `FieldInfo` is object identity, and
`get_identity_field` returns the object stored under the identity key, so the
flag is true exactly for the entry stored under that key (and the `KeyError`
for a dangling identity name only fires when at least one field is
iterated). -/
def GeoAlchemyEntityClassFactory.defineFields (relation_info : RelationInfo) :
    Except Err (List (String × Column)) :=
  relation_info.fields.mapM (fun kv => do
    let idKey ← relation_info.identityFieldKey
    let col ← fieldInfoToColumn kv.2 (idKey == some (lowerStr kv.1))
    pure (kv.1, col))

/-- `GeoAlchemyFeatureTableClassFactory._geometry_type_to_sqlalchemy_column`
(geoalchemy.py lines 385-403): POINT/POLYLINE/POLYGON become
`Column(geometry_column_name, Geometry(kind))` — no SRID argument is passed —
and any other kind raises `UnsupportedGeometryException` carrying it. -/
def geometryTypeToColumn (geometry_column_name : String)
    (geometry_type : GeometryType) : Except Err Column :=
  match geometry_type with
  | .POINT => .ok ⟨.str geometry_column_name, .geometry "POINT" Option.none, false⟩
  | .POLYLINE => .ok ⟨.str geometry_column_name, .geometry "POLYLINE" Option.none, false⟩
  | .POLYGON => .ok ⟨.str geometry_column_name, .geometry "POLYGON" Option.none, false⟩
  | g => .error (.unsupportedGeometry g)

/-- `GeoAlchemyFeatureTableClassFactory._define_fields` (geoalchemy.py lines
368-383): the parent's columns plus a geometry column stored under the
literal key `'geom'`. -/
def GeoAlchemyFeatureTableClassFactory.defineFields (geometry_column_name : String)
    (ft : FeatureTableInfo) : Except Err (List (String × Column)) := do
  let props ← GeoAlchemyEntityClassFactory.defineFields ft.toRelationInfo
  let gcol ← geometryTypeToColumn geometry_column_name ft.geometry_type
  pure (dinsert props "geom" gcol)

/-- A class synthesized by `GeoAlchemyEntityClassFactory.make`: the outer
wrapper class' name, the inner declarative class' name, the table binding and
column properties, and `oid`, which models Python object identity (each call
to `type(...)` yields a fresh object). -/
structure SynthClass where
  name : String
  inner_name : String
  tablename : PyVal
  schema : String
  props : List (String × Column)
  oid : Nat

/-- The mutable state of an entity-class factory: the `_classes` cache
(`EntityClassFactory.__init__`; `_add` keys it by `cls.__name__`), the
table-creation requests issued to the engine (schema, tablename), and the
object-identity counter. -/
structure FactoryState where
  classes : List (String × SynthClass)
  created_tables : List (String × PyVal)
  next_oid : Nat

/-- A freshly constructed factory: empty cache, no tables created. -/
def factoryInit : FactoryState := ⟨[], [], 0⟩

/-- `GeoAlchemyEntityClassFactory.make` (geoalchemy.py lines 228-268):
derive the column properties, build the inner declarative class
`GeoAlchemyDynamic_{name}_Inner` bound to the relation's table, issue the
table-creation request, build and return the wrapper class
`GeoAlchemyDynamic_{name}`.  The `_classes` cache is NOT touched: `make`
never calls `_add`. -/
def GeoAlchemyEntityClassFactory.make (relation_info : RelationInfo)
    (schema : Option String) (dataStoreSchema : String) (s : FactoryState) :
    Except Err (SynthClass × FactoryState) := do
  let sch := schema.getD dataStoreSchema
  let fieldProps ← GeoAlchemyEntityClassFactory.defineFields relation_info
  let cls : SynthClass :=
    { name := "GeoAlchemyDynamic_" ++ pyStrOf relation_info.name,
      inner_name := "GeoAlchemyDynamic_" ++ pyStrOf relation_info.name ++ "_Inner",
      tablename := relation_info.name, schema := sch, props := fieldProps,
      oid := s.next_oid }
  let s1 : FactoryState :=
    { classes := s.classes,
      created_tables := s.created_tables ++ [(sch, relation_info.name)],
      next_oid := s.next_oid + 1 }
  pure (cls, s1)

/-- The argument of `EntityClassFactory.get`: a relation-info object or a bare
class-name string. -/
inductive GetArg where
  | rel (r : RelationInfo)
  | str (s : String)

/-- `EntityClassFactory.get` (db/modeling.py lines 39-49), with `self.make`
dispatched to `GeoAlchemyEntityClassFactory.make` (called with its default
`schema='public'`).  The key is `what.name` only when `type(what) is
RelationInfo` exactly; a `FeatureTableInfo` argument keys the cache by the
object itself, which is never among the string keys, so it raises `KeyError`
directly.  After a cache miss with a `RelationInfo`, `make` runs, but since it
never stores anything, the final `self._classes[key]` raises `KeyError`. -/
def EntityClassFactory.get (what : GetArg) (dataStoreSchema : String)
    (st : FactoryState) : Except Err (SynthClass × FactoryState) :=
  match what with
  | .str key =>
      match dlookup st.classes key with
      | some c => .ok (c, st)
      | Option.none => .error .keyError
  | .rel r =>
      if r.py_type = PyClass.relationInfo then do
        let key := pyStrOf r.name
        let st1 ←
          if (dlookup st.classes key).isNone then do
            let p ← GeoAlchemyEntityClassFactory.make r (some "public") dataStoreSchema st
            pure p.2
          else pure st
        match dlookup st1.classes key with
        | some c => pure (c, st1)
        | Option.none => Except.error Err.keyError
      else
        .error .keyError

/-! Outcome projections used to state the claims. -/

/-- Did a parsing (or factory) call succeed? -/
def isOkE {α : Type} : Except Err α → Bool
  | .ok _ => true
  | .error _ => false

/-- Did a call fail with `ParseException` specifically? -/
def isParseErr {α : Type} : Except Err α → Bool
  | .error (.parseException _) => true
  | _ => false

/-- The effective SRID of the first feature table of a parsed collection. -/
def firstTableSrid (r : Except Err FeatureTableInfoCollection) : Option Int :=
  match r with
  | .ok c => (c.relations.head?).map (fun kv => kv.2.srid)
  | .error _ => Option.none

/-- The `name` slot of a parsed model. -/
def parsedModelName (r : Except Err ModelInfo) : Option TryGetResult :=
  match r with
  | .ok m => some m.name
  | .error _ => Option.none

/-- The stored identity of a parsed feature table. -/
def parsedTableIdentity (r : Except Err FeatureTableInfo) : Option PyVal :=
  match r with
  | .ok t => some t.identity?
  | .error _ => Option.none

/-- The `sequence` slot of a constructed revision. -/
def revisionSeq (r : Except Err Revision) : Option (Option PyVal) :=
  match r with
  | .ok rev => some rev.sequence
  | .error _ => Option.none

/-! Concrete inputs for the claims. -/

/-- Which keys a schematic document carries; one flag per key the
specification calls required (`revision.title`, `revision.sequence`,
`revision.authorName`, `revision.authorEmail`, `spatial.defaultIdentity`, a
field's `name`, a field's `type`). -/
structure DocFlags where
  title : Bool
  sequence : Bool
  authorName : Bool
  authorEmail : Bool
  defaultIdentity : Bool
  fieldName : Bool
  fieldType : Bool

def optKv (b : Bool) (k : String) (v : PyVal) : List (String × PyVal) :=
  if b then [(k, v)] else []

/-- The field document of the schematic model: `name`/`type` controlled by
the flags, the mandatory `source`, `target`, `i18n` sub-objects present. -/
def mkFieldDoc (f : DocFlags) : PyVal :=
  .dict (optKv f.fieldName "name" (.str "f1") ++ optKv f.fieldType "type" (.str "int") ++
         [("source", .dict []), ("target", .dict []), ("i18n", .dict [])])

/-- A schematic serialized model document, complete except for the keys the
flags drop: one feature table `roads` with one field, no top-level `name`. -/
def mkDoc (f : DocFlags) : PyVal :=
  .dict
    [("revision", .dict (optKv f.title "title" (.str "T") ++
        optKv f.sequence "sequence" (.int 1) ++
        optKv f.authorName "authorName" (.str "A") ++
        optKv f.authorEmail "authorEmail" (.str "E"))),
     ("spatial", .dict ([("commonSrid", .int 102100)] ++
        optKv f.defaultIdentity "defaultIdentity" (.str "gid") ++
        [("commonFields", .list []),
         ("featureTables", .list
           [.dict [("name", .str "roads"), ("geometryType", .str "point"),
                   ("nena", .dict []), ("i18n", .dict []),
                   ("fields", .list [mkFieldDoc f])]])]))]

/-- The schematic document with every key present. -/
def docComplete : PyVal := mkDoc ⟨true, true, true, true, true, true, true⟩

/-- The schematic document missing only the required key `revision.title`. -/
def docMissingTitle : PyVal := mkDoc ⟨false, true, true, true, true, true, true⟩

/-- A feature-table document for a collection whose table declares no
`srid` of its own, inside a collection document with or without a
`commonSrid`. -/
def collTableDoc : PyVal :=
  .dict [("name", .str "roads"), ("geometryType", .str "point"),
         ("nena", .dict []), ("i18n", .dict []), ("fields", .list [])]

def collDoc (commonSrid : Option Int) : PyVal :=
  .dict ((match commonSrid with
          | some c => [("commonSrid", PyVal.int c)]
          | Option.none => []) ++
         [("defaultIdentity", .str "gid"), ("commonFields", .list []),
          ("featureTables", .list [collTableDoc])])

/-- A feature-table document that declares its own identity `gid`. -/
def tblWithIdentity : PyVal :=
  .dict [("name", .str "roads"), ("geometryType", .str "point"),
         ("nena", .dict []), ("i18n", .dict []), ("fields", .list []),
         ("identity", .str "gid")]

/-- The same table document without the `identity` key. -/
def tblNoIdentity : PyVal :=
  .dict [("name", .str "roads"), ("geometryType", .str "point"),
         ("nena", .dict []), ("i18n", .dict []), ("fields", .list [])]

/-- An empty i18n pack (for concrete fields). -/
def emptyPack : I18nPack := ⟨[], []⟩

/-- A concrete INT field named `gid`. -/
def gidField : FieldInfo :=
  { name := .str "gid", unique := .bool true, data_type := .INT,
    source := ⟨Option.none, []⟩, target := ⟨.bool false, .bool false⟩,
    i18n := emptyPack, preferences := .none,
    usage := ⟨.bool false, .bool false⟩, nena := ⟨.none, .none⟩,
    domain := Option.none }

/-- A concrete UUID field (the data type with no storage mapping). -/
def uuidField : FieldInfo :=
  { name := .str "guid", unique := .bool true, data_type := .UUID,
    source := ⟨Option.none, []⟩, target := ⟨.bool false, .bool false⟩,
    i18n := emptyPack, preferences := .none,
    usage := ⟨.bool false, .bool false⟩, nena := ⟨.none, .none⟩,
    domain := Option.none }

/-- A concrete relation `roads` (an exact `RelationInfo`, as
`EntityClassFactory.get` tests with `type(what) is RelationInfo`) whose
identity field is its single INT field `gid`. -/
def roadsRel : RelationInfo :=
  { name := .str "roads", identity? := .str "gid",
    fields := [("gid", gidField)], nena := Option.none, i18n := Option.none,
    py_type := PyClass.relationInfo }

/-- A concrete feature table with a POINT geometry and its own SRID 102100
(so its effective SRID is 102100). -/
def pointTable : FeatureTableInfo :=
  { name := .str "parcels", identity? := .none,
    fields := [("gid", gidField)], nena := Option.none, i18n := Option.none,
    py_type := PyClass.featureTableInfo,
    geometry_type := GeometryType.POINT, srid? := some 102100 }

/-- The column properties `GeoAlchemyFeatureTableClassFactory._define_fields`
produces for `pointTable`. -/
def pointTableProps : List (String × Column) :=
  [("gid", ⟨.str "gid", .integer, false⟩),
   ("geom", ⟨.str "geom", .geometry "POINT" Option.none, false⟩)]

/-! Theorems settling the claims. -/

/-- C1 counterexample: a complete document missing only the required key
`revision.title` parses successfully (no `ParseException`), and the parsed
revision's title is `None` — `_json_2_revision` fetches every revision key
through `Dicts.try_get`, which never raises. -/
theorem parse_missing_revision_title_succeeds :
    isOkE (JsonModelInfoParser.parse docMissingTitle) = true ∧
    isParseErr (JsonModelInfoParser.parse docMissingTitle) = false ∧
    (JsonModelInfoParser.parse docMissingTitle).map (fun m => m.revision.title) =
      .ok PyVal.none :=
  ⟨rfl, rfl, rfl⟩

/-- C1 (amended): over the family of schematic documents with any combination
of the seven keys the claim lists, `JsonModelInfoParser.parse` fails with
`ParseException` exactly when `spatial.defaultIdentity`, the field's `name`
or the field's `type` is missing, and succeeds otherwise — in particular a
missing `revision.title` / `sequence` / `authorName` / `authorEmail` never
causes a failure (the values default to `None`, the sequence to 0). -/
theorem parse_required_keys (f : DocFlags) :
    isParseErr (JsonModelInfoParser.parse (mkDoc f)) =
      (!f.defaultIdentity || !f.fieldName || !f.fieldType) ∧
    isOkE (JsonModelInfoParser.parse (mkDoc f)) =
      (f.defaultIdentity && f.fieldName && f.fieldType) := by
  obtain ⟨t, s, an, ae, di, fn, ft⟩ := f
  cases t <;> cases s <;> cases an <;> cases ae <;> cases di <;> cases fn <;> cases ft <;>
    exact ⟨rfl, rfl⟩

/-- C2 (code bug): for the relation `roads`, `GeoAlchemyEntityClassFactory.make`
succeeds and synthesizes a type, but never stores it in the `_classes` cache,
so `EntityClassFactory.get` — which relies on `make` having cached the type —
raises `KeyError` on its very first call instead of returning a cached type;
moreover two `make` calls return two distinct (non-identical) class objects. -/
theorem factory_get_never_returns_cached_type :
    (GeoAlchemyEntityClassFactory.make roadsRel (some "public") "public" factoryInit).map
        (fun p => (p.1.name, p.2.classes)) =
      .ok ("GeoAlchemyDynamic_roads", []) ∧
    EntityClassFactory.get (.rel roadsRel) "public" factoryInit = .error .keyError ∧
    ((GeoAlchemyEntityClassFactory.make roadsRel (some "public") "public" factoryInit).bind
        (fun p => (GeoAlchemyEntityClassFactory.make roadsRel (some "public") "public"
          p.2).map (fun q => (p.1.oid, q.1.oid)))) = .ok (0, 1) :=
  ⟨rfl, rfl, rfl⟩

/-- C3 (code bug): `_json_2_feature_table_info` yields the collection's
default identity both when the table declares no `identity` and when it
declares its own (`"gid"` here): source line 202 reads `default_identity` in
both branches of its conditional, so the declared value never overrides. -/
theorem feature_table_identity_ignores_declared :
    parsedTableIdentity (json2featureTableInfo tblNoIdentity [] (.str "uid") (.int 3857)) =
      some (.str "uid") ∧
    parsedTableIdentity (json2featureTableInfo tblWithIdentity [] (.str "uid") (.int 3857)) =
      some (.str "uid") :=
  ⟨rfl, rfl⟩

/-- C4 counterexample: constructing a `Revision` with the sequence string
`"BAD VALUE"` fails with `ValueError`, not `TypeError` — `int("BAD VALUE")`
raises `ValueError`, which the source's `except TypeError` clause does not
catch (the repository's own test expects `ValueError`). -/
theorem revision_bad_value_raises_valueerror :
    Revision.init (.str "Test Title") (.str "BAD VALUE") (.str "Eric Blair")
      (.str "eb1984@gmail.com") = .error Err.valueError ∧
    Err.valueError ≠ Err.typeError :=
  ⟨rfl, by decide⟩

/-- C4 (amended): a sequence given as `"100"` yields the integer 100, as
`"100.1"` yields the float 100.1 (the exact rational 1001/10 in the model),
and a non-numeric string such as `"BAD VALUE"` fails with `ValueError`. -/
theorem revision_sequence_string_parsing :
    revisionSeq (Revision.init (.str "T") (.str "100") (.str "A") (.str "E")) =
      some (some (.int 100)) ∧
    revisionSeq (Revision.init (.str "T") (.str "100.1") (.str "A") (.str "E")) =
      some (some (.float (mkRat 1001 10))) ∧
    Revision.init (.str "T") (.str "BAD VALUE") (.str "A") (.str "E") =
      .error Err.valueError :=
  ⟨rfl, rfl, rfl⟩

/-- C5 (confirmed): for a feature table that declares no `srid` of its own,
`_json_2_feature_table_info_collection` resolves the table's effective SRID to
the collection's `commonSrid` when one is given, and to the system default
`DEFAULT_SRID = 3857` when the collection has no `commonSrid` either. -/
theorem feature_table_srid_resolution (c : Int) :
    firstTableSrid (json2featureTableInfoCollection (collDoc (some c))) = some c ∧
    firstTableSrid (json2featureTableInfoCollection (collDoc Option.none)) =
      some DEFAULT_SRID ∧
    DEFAULT_SRID = 3857 :=
  ⟨rfl, rfl, rfl⟩

/-- C6 (confirmed): mapping any field whose data type lies outside
TEXT/INT/FLOAT/DATETIME (so UUID and UNKNOWN) to a storage column fails with
`UnsupportedDataTypeError` carrying that data type — it is never coerced to
some other column kind. -/
theorem unsupported_data_type_raises (field_info : FieldInfo) (identity : Bool)
    (h : field_info.data_type ≠ DataType.TEXT ∧ field_info.data_type ≠ DataType.INT ∧
         field_info.data_type ≠ DataType.FLOAT ∧ field_info.data_type ≠ DataType.DATETIME) :
    fieldInfoToColumn field_info identity =
      .error (Err.unsupportedDataType field_info.data_type) := by
  obtain ⟨h1, h2, h3, h4⟩ := h
  cases hdt : field_info.data_type with
  | TEXT => exact absurd hdt h1
  | INT => exact absurd hdt h2
  | FLOAT => exact absurd hdt h3
  | DATETIME => exact absurd hdt h4
  | UNKNOWN => simp [fieldInfoToColumn, hdt]
  | UUID => simp [fieldInfoToColumn, hdt]

/-- Witness for C6: the concrete UUID field `guid` fails with
`UnsupportedDataTypeError(UUID)`. -/
theorem unsupported_data_type_raises_witness :
    fieldInfoToColumn uuidField false = .error (Err.unsupportedDataType DataType.UUID) :=
  unsupported_data_type_raises uuidField false (by decide)

/-- C7 counterexample: for the concrete POINT feature table whose effective
SRID is 102100, the synthesized geometry column records no SRID argument at
all (`Geometry('POINT')` is called without one), so the column is not "at the
relation's effective SRID". -/
theorem geometry_column_srid_not_applied :
    GeoAlchemyFeatureTableClassFactory.defineFields "geom" pointTable = .ok pointTableProps ∧
    (dlookup pointTableProps "geom").map Column.geomSrid = some Option.none ∧
    pointTable.srid = 102100 ∧
    (some Option.none : Option (Option Int)) ≠ some (some 102100) := by
  exact ⟨rfl, rfl, rfl, by simp⟩

/-- C7 (amended): POINT, POLYLINE and POLYGON map to geometry columns of the
corresponding kind — constructed without any SRID argument, so the relation's
effective SRID is not applied — and UNKNOWN fails with
`UnsupportedGeometryException` carrying the offending geometry type. -/
theorem geometry_type_column_mapping (gname : String) :
    geometryTypeToColumn gname GeometryType.POINT =
      .ok ⟨.str gname, .geometry "POINT" Option.none, false⟩ ∧
    geometryTypeToColumn gname GeometryType.POLYLINE =
      .ok ⟨.str gname, .geometry "POLYLINE" Option.none, false⟩ ∧
    geometryTypeToColumn gname GeometryType.POLYGON =
      .ok ⟨.str gname, .geometry "POLYGON" Option.none, false⟩ ∧
    geometryTypeToColumn gname GeometryType.UNKNOWN =
      .error (Err.unsupportedGeometry GeometryType.UNKNOWN) :=
  ⟨rfl, rfl, rfl, rfl⟩

/-- C8 (code bug): a complete document without a top-level `name` parses
successfully, but `ModelInfo.name` receives the raw
`TryGetResult(False, 'Nameless Model')` named tuple rather than the
placeholder string — parsing.py line 125 omits the `.value` projection that
every other `Dicts.try_get` call site applies. -/
theorem parse_nameless_model_stores_tryget_result :
    isOkE (JsonModelInfoParser.parse docComplete) = true ∧
    parsedModelName (JsonModelInfoParser.parse docComplete) =
      some ⟨false, .str "Nameless Model"⟩ :=
  ⟨rfl, rfl⟩

/-- C9 (confirmed): for every pack, active locale and key,
`I18nPack.__getattr__` returns exactly what the specification prescribes —
the active locale's overlay value when that locale defines the key, else the
default locale's value when defined, else `None` — and, being a total
function into `PyVal`, it never raises for a missing key. -/
theorem i18n_lookup_matches_spec (p : I18nPack) (current_locale : Option String)
    (name : String) :
    p.lookupKey current_locale name = specLocaleLookup p current_locale name := by
  unfold I18nPack.lookupKey specLocaleLookup
  cases current_locale with
  | none => rfl
  | some loc =>
      cases h1 : dlookup p.translations loc with
      | none => simp [h1]
      | some ov =>
          cases h2 : dlookup ov name with
          | none => simp [h1, h2]
          | some v => simp [h1, h2]

/-- C10 (confirmed): constructing a `Revision` with `sequence=None` succeeds
for any other arguments and stores the integer 0 as the sequence. -/
theorem revision_none_sequence_zero (title author_name author_email : PyVal) :
    Revision.init title PyVal.none author_name author_email =
      .ok ⟨title, some (PyVal.int 0), author_name, author_email⟩ :=
  rfl
